import Mathlib

/-!
Verification of the request-execution core of the Patisson `_Request` client
library. The definitions below are a shallow embedding of
`patisson_request/core.py` (class `SelfAsyncService`),
`patisson_request/cache.py` (the TTL cache port and its Redis / Memcached
backends) and `patisson_request/errors.py` (`ErrorCode`), translated function
by function from the Python source. Machine-level Python behaviour that the
claims depend on (truthiness, `int` truncation, `==` between an `int` and an
`Enum` member, the empty byte string `bytes(False)`) is modelled explicitly.
-/

namespace PatissonReq

/-- Embedding of `patisson_request.services.Service`, a Python `Enum` of
microservice identifiers. -/
inductive Service
  | test
  | authentication
  | books
  | users
  | forum
  | internalMedia
  | apiGateway
deriving DecidableEq, Repr

/-- The `.value` string of each `Service` member (`services.py`). -/
def Service.value : Service → String
  | .test => "_test"
  | .authentication => "authentication"
  | .books => "books"
  | .users => "users"
  | .forum => "forum"
  | .internalMedia => "internal_media"
  | .apiGateway => "api_gateway"

/-- Embedding of `patisson_request.errors.ErrorCode`. In the source this is a
plain `Enum` (not an `IntEnum` and not a `str` mixin) whose member values are
the strings recorded by `ErrorCode.value` below. -/
inductive ErrorCode
  | INVALID_PARAMETERS
  | BAD_CREDENTIALS
  | VALIDATE_ERROR
  | ACCESS_ERROR
  | JWT_INVALID
  | JWT_EXPIRED
  | JWT_SUB_NOT_EQUAL
  | CLIENT_ACCESS_ERROR
  | CLIENT_JWT_INVALID
  | CLIENT_JWT_EXPIRED
  | CLIENT_JWT_SUB_NOT_EQUAL
deriving DecidableEq, Repr

/-- The string `.value` of each `ErrorCode` member, copied from `errors.py`. -/
def ErrorCode.value : ErrorCode → String
  | .INVALID_PARAMETERS => "the passed parameters are not correct"
  | .BAD_CREDENTIALS => "invalid credentials"
  | .VALIDATE_ERROR => "validation error"
  | .ACCESS_ERROR => "there is no permission for this call"
  | .JWT_INVALID => "invalid jwt"
  | .JWT_EXPIRED => "jwt has expired"
  | .JWT_SUB_NOT_EQUAL => "jwt sub in access and refresh tokens are not equal"
  | .CLIENT_ACCESS_ERROR => "client there is no permission for this call"
  | .CLIENT_JWT_INVALID => "client has an invalid jwt"
  | .CLIENT_JWT_EXPIRED => "client has an jwt has expired"
  | .CLIENT_JWT_SUB_NOT_EQUAL => "client jwt sub in access and refresh tokens are not equal"

/-- Embedding of `patisson_request.jwt_tokens.TokenBearer` (a `str` Enum). -/
inductive TokenBearer
  | client
  | service
deriving DecidableEq, Repr

/-- The `.value` marker string of each `TokenBearer` member. -/
def TokenBearer.value : TokenBearer → String
  | .client => "CLIENT"
  | .service => "SERVICE"

/-- A fragment of the Python value universe, large enough to state what the
comparison `httpx_response.status_code == ErrorCode.JWT_EXPIRED` in
`core.py` evaluates to. -/
inductive PyVal
  | int (n : Int)
  | str (s : String)
  | enumMember (e : ErrorCode)
deriving DecidableEq, Repr

/-- CPython `==` on this fragment: ints compare by value, strings by value,
and plain-`Enum` members by identity (`Enum` does not override `__eq__`, so
it falls back to `object.__eq__`). Every cross-type comparison, in
particular `int == ErrorCode.X`, returns `False`. -/
def pyEq : PyVal → PyVal → Bool
  | .int a, .int b => a == b
  | .str a, .str b => a == b
  | .enumMember a, .enumMember b => a == b
  | _, _ => false

/-- Python `int(q)` on a rational (the model of a `float`): truncation toward
zero. `Int.div` is T-division, which rounds toward zero. -/
def pyInt (q : ℚ) : Int := Int.tdiv q.num (q.den : Int)

/-- A Python `dict[str, str]` of headers, modelled as an insertion-ordered
association list with unique keys. -/
abbrev Headers := List (String × String)

/-- Setting `d[k] = v` on a Python dict: an existing key keeps its position
and gets the new value, a new key is appended. -/
def dictInsert (d : Headers) (k v : String) : Headers :=
  if d.any (fun p => p.1 == k) then d.map (fun p => if p.1 == k then (k, v) else p)
  else d ++ [(k, v)]

/-- The merge `\x7b**a, **b\x7d` of two Python dicts. -/
def dictMerge (a b : Headers) : Headers :=
  b.foldl (fun d p => dictInsert d p.1 p.2) a

/-- True iff a list of strings has a repeated element. -/
def valuesDistinct : List String → Bool
  | [] => true
  | v :: vs => !(vs.contains v) && valuesDistinct vs

/-- The guard `len(headers.values()) != len(set(headers.values()))` of
`_request` (core.py:466): some header value occurs under two or more keys. -/
def hasDuplicateValues (d : Headers) : Bool :=
  !(valuesDistinct (d.map Prod.snd))

/-- Python truthiness of an optional dict or list: `None` and the empty
collection are falsy. -/
def pyTruthyList {α : Type} : Option (List α) → Bool
  | none => false
  | some l => !l.isEmpty

/-- Embedding of `jwt_tokens.ServiceAccessTokenPayload`: the claim fields of
a service access token (the `type` and `bearer` discriminators are fixed for
this payload class and omitted). The `sub` of a service token names a
`Service`. -/
structure ServiceAccessTokenPayload where
  iss : String
  sub : Service
  exp : Int
  iat : Int
  role : String
deriving DecidableEq, Repr

/-- Embedding of `jwt_tokens.ClientAccessTokenPayload`; the `sub` of a client
token is a user id string. -/
structure ClientAccessTokenPayload where
  iss : String
  sub : String
  exp : Int
  iat : Int
  role : String
deriving DecidableEq, Repr

/-- The body of a typed GraphQL response, as a map from field name to either
a present value (`some v`) or the `EmptyField` sentinel that marks a field
the query did not request (`none`). -/
abbrev GqlBody := List (String × Option String)

/-- Embedding of `SelfAsyncService.remove_empty_fields_from_response_body`
restricted to one flat model: fields whose value is the `EmptyField`
sentinel are dropped before serialization. -/
def stripBody (b : GqlBody) : List (String × String) :=
  b.filterMap (fun fv => fv.2.map (fun v => (fv.1, v)))

/-- Re-hydration `response_type(**value)` of a stored body dict: every field
of the model class is looked up in the dict, and a missing field takes its
`EmptyField` default. `fields` is the ordered field list of the model
class. -/
def rehydrateBody (fields : List String) (d : List (String × String)) : GqlBody :=
  fields.map (fun f => (f, (d.find? (fun p => p.1 == f)).map Prod.snd))

/-- The serializable part of a cached `Response` (`status_code`, `headers`,
`is_error`, and the stripped body dict), as stored by `post_request`. -/
structure CachedResponse where
  statusCode : Int
  headers : Headers
  isError : Bool
  body : List (String × String)
deriving DecidableEq, Repr

/-- A cached byte string, modelled by what it deserializes to. `sentinel`
is `bytes(False) = b..` the empty byte string, which is falsy and is the
unique interned empty `bytes` object, so `cache_value is bytes(False)`
recognises exactly it. The other constructors stand for the non-empty JSON
produced by `dict_to_bytes` on the corresponding model dump; `json.dumps`
of a dict is never empty, so they are truthy, and `bytes_to_dict` recovers
the dump. -/
inductive CacheVal
  | sentinel
  | svcPayload (p : ServiceAccessTokenPayload)
  | clientPayload (p : ClientAccessTokenPayload)
  | respBytes (r : CachedResponse)
deriving DecidableEq, Repr

/-- Python truthiness of the cached bytes: only the empty byte string is
falsy. -/
def CacheVal.truthy : CacheVal → Bool
  | .sentinel => false
  | _ => true

/-- The key-value content of a cache backend. -/
abbrev CacheStore := List (String × CacheVal)

/-- Lookup of a key in the backend content. -/
def cacheLookup (c : CacheStore) (k : String) : Option CacheVal :=
  (c.find? (fun p => p.1 == k)).map Prod.snd

/-- The TTL both backends actually apply. `RedisAsyncCache.set` passes
`ex=time if time else self.default_cache_lifetime` and
`MemcachedAsyncCache._get_set_time` starts with `if not time: return`
the default: a `None` argument and the falsy `0` both fall back to the
default lifetime; every other value is used as given. -/
def effectiveTTL (defaultLifetime : Int) (t : Option Int) : Int :=
  match t with
  | none => defaultLifetime
  | some n => if n == 0 then defaultLifetime else n

/-- Result of running a Python call: either a value or a raised exception
(caught by an enclosing `except Exception`). -/
inductive PyResult (α : Type)
  | ok (a : α)
  | exn
deriving DecidableEq, Repr

/-- Embedding of `RedisAsyncCache.set`: the backend call
`redis.set(name=key, value=value, ex=...)` is an arbitrary behaviour
`backendSet` (new store, or a raised exception); the `try/except` catches
any exception, logs it, and returns normally with the store unchanged. -/
def redisSet (defaultLifetime : Int) (store : CacheStore)
    (backendSet : CacheStore → String → CacheVal → Int → PyResult CacheStore)
    (k : String) (v : CacheVal) (t : Option Int) : PyResult CacheStore :=
  match backendSet store k v (effectiveTTL defaultLifetime t) with
  | .ok s1 => .ok s1
  | .exn => .ok store

/-- Embedding of `RedisAsyncCache.get`: on a backend exception the function
logs and falls through, returning `None`. -/
def redisGet (store : CacheStore)
    (backendGet : CacheStore → String → PyResult (Option CacheVal))
    (k : String) : PyResult (Option CacheVal) :=
  match backendGet store k with
  | .ok v => .ok v
  | .exn => .ok none

/-- Embedding of `MemcachedAsyncCache.set`: like the Redis port but the key
is prefixed with `self.prefix` (built from `prefix_template.format(db)`),
and the TTL goes through `_get_set_time`, which has the same falsy-zero
fallback as the Redis `ex=` expression. -/
def memcachedSet (defaultLifetime : Int) (pref : String) (store : CacheStore)
    (backendSet : CacheStore → String → CacheVal → Int → PyResult CacheStore)
    (k : String) (v : CacheVal) (t : Option Int) : PyResult CacheStore :=
  match backendSet store (pref ++ k) v (effectiveTTL defaultLifetime t) with
  | .ok s1 => .ok s1
  | .exn => .ok store

/-- Embedding of `MemcachedAsyncCache.get`. -/
def memcachedGet (pref : String) (store : CacheStore)
    (backendGet : CacheStore → String → PyResult (Option CacheVal))
    (k : String) : PyResult (Option CacheVal) :=
  match backendGet store (pref ++ k) with
  | .ok v => .ok v
  | .exn => .ok none

/-- What a call to `service_verify` or `client_verify` returns: `False`
(invalid token), a validated payload, or a raised decode error when a hit
holds bytes that do not deserialize into the payload class. -/
inductive VerifyOutcome
  | invalid
  | validService (p : ServiceAccessTokenPayload)
  | validClient (p : ClientAccessTokenPayload)
  | decodeFailure
deriving DecidableEq, Repr

/-- Observable behaviour of one `service_verify` / `client_verify` call: the
returned value, whether the Authentication service was contacted, and the
`cache.set` call performed, as `(key, value, ttl argument)`. -/
structure VerifyRun where
  result : VerifyOutcome
  networkCall : Bool
  cacheWrite : Option (String × CacheVal × Option Int)
deriving DecidableEq, Repr

/-- Embedding of `SelfAsyncService.service_verify` (core.py:301-344).
`cache` is the content behind `self.cache.get`; `verifyResp` is the
Authentication response for the token (`some p` iff `is_verify` with
payload `p`); `now` is `int(time.time())` at the write. -/
def service_verify (cache : CacheStore) (token : String) (serviceArg : Option Service)
    (verifyResp : Option ServiceAccessTokenPayload) (now : Int) : VerifyRun :=
  match cacheLookup cache (token ++ TokenBearer.service.value) with
  | some v =>
    if v.truthy then
      match v with
      | .svcPayload p => ⟨.validService p, false, none⟩
      | _ => ⟨.decodeFailure, false, none⟩
    else ⟨.invalid, false, none⟩
  | none =>
    match verifyResp with
    | none => ⟨.invalid, true, some (token ++ TokenBearer.service.value, .sentinel, none)⟩
    | some p =>
      match serviceArg with
      | some s =>
        if p.sub ≠ s then
          ⟨.invalid, true, some (token ++ TokenBearer.service.value, .sentinel, none)⟩
        else
          ⟨.validService p, true,
            some (token ++ TokenBearer.service.value, .svcPayload p, some (p.exp - now))⟩
      | none =>
        ⟨.validService p, true,
          some (token ++ TokenBearer.service.value, .svcPayload p, some (p.exp - now))⟩

/-- Embedding of `SelfAsyncService.client_verify` (core.py:347-387): the
same shape as `service_verify` but keyed with the CLIENT bearer marker and
without the sub-vs-service cross check. -/
def client_verify (cache : CacheStore) (token : String)
    (verifyResp : Option ClientAccessTokenPayload) (now : Int) : VerifyRun :=
  match cacheLookup cache (token ++ TokenBearer.client.value) with
  | some v =>
    if v.truthy then
      match v with
      | .clientPayload p => ⟨.validClient p, false, none⟩
      | _ => ⟨.decodeFailure, false, none⟩
    else ⟨.invalid, false, none⟩
  | none =>
    match verifyResp with
    | none => ⟨.invalid, true, some (token ++ TokenBearer.client.value, .sentinel, none)⟩
    | some p =>
      ⟨.validClient p, true,
        some (token ++ TokenBearer.client.value, .clientPayload p, some (p.exp - now))⟩

/-- Classification of the final HTTP response by `_request`
(core.py:511-539): each constructor stands for the `Response` object built
in the corresponding branch (`is_error=True` with an `ErrorBodyResponse_5xx`
body, `is_error=True` with an `ErrorBodyResponse_4xx` body, or
`is_error=False` with the typed success body). -/
inductive ResponseClass
  | err5xx (status : Int)
  | err4xx (status : Int)
  | success (status : Int)
deriving DecidableEq, Repr

/-- The status-class cascade of `_request`. -/
def classifyStatus (s : Int) : ResponseClass :=
  if 500 ≤ s then .err5xx s
  else if 400 ≤ s then .err4xx s
  else .success s

/-- Network exchanges performed by one `_request` call, in order. Every
event is a network exchange. -/
inductive Event
  | tokenLogin
  | httpAttempt
  | refresh
deriving DecidableEq, Repr

/-- What the backend does on one iteration of the reconnection loop:
`client.request` either raises `httpx.ConnectError`, or completes the HTTP
exchange with a status code, an optional `Authorization` response header,
and the outcome the responder-identity verification would have
(`service_verify` via the cache and the Authentication service). -/
inductive Outcome
  | connectError
  | exchange (status : Int) (authHeader : Option String) (verifyOk : Bool)
deriving DecidableEq, Repr

/-- State of the `for i in range(max_reconnections)` loop when it ends:
the loop variable `i` at exit, the number of `client.request` calls made,
the last bound `httpx_response` status (none if every attempt raised
`ConnectError` before binding it), and whether the loop ended by `break`. -/
structure LoopResult where
  exitIdx : Nat
  attempts : Nat
  lastStatus : Option Int
  broke : Bool
deriving DecidableEq, Repr

/-- One step of the reconnection loop (core.py:470-492), from index `i`
with `rem` iterations left. `httpx.ConnectError`, a missing
`Authorization` response header (`KeyError`) and a failed responder
verification (`UnauthorizedServiceError`) are caught, logged and retried;
a call to the Authentication service breaks immediately, an error status
(>= 400) breaks without verification, and a verified response breaks. -/
def attemptGo (service : Service) (env : Nat → Outcome) :
    Nat → Nat → Option Int → Nat → LoopResult
  | i, 0, ls, att => ⟨i - 1, att, ls, false⟩
  | i, rem + 1, ls, att =>
    match env i with
    | .connectError => attemptGo service env (i + 1) rem ls (att + 1)
    | .exchange status authHeader verifyOk =>
      let breakNow : Bool :=
        (service == Service.authentication) ||
          (if (400 : Int) ≤ status then true
           else match authHeader with
             | none => false
             | some _ => verifyOk)
      if breakNow then ⟨i, att + 1, some status, true⟩
      else attemptGo service env (i + 1) rem (some status) (att + 1)

/-- The whole reconnection loop over `range(n)`. -/
def attemptLoop (service : Service) (env : Nat → Outcome) (n : Nat) : LoopResult :=
  attemptGo service env 0 n none 0

/-- Exceptions `_request` can raise. `connectionError` carries the service,
the attempt budget and the effective timeout that the f-string message
`Service ... did not respond ... times (timeout ...)` interpolates.
`unboundResponse` is the `UnboundLocalError` path (never reached), and
`fuelExhausted` only pads the fuel-indexed model of the recursion. -/
inductive ReqError
  | selfRequest
  | badTimeout
  | badMaxReconnections
  | duplicateHeaders
  | connectionError (service : Service) (count : Int) (timeout : ℚ)
  | unboundResponse
  | fuelExhausted
deriving DecidableEq, Repr

/-- A `_request` call either raises or returns a classified response. -/
inductive ReqOutcome
  | raised (e : ReqError)
  | returned (r : ResponseClass)
deriving DecidableEq, Repr

/-- Result of one `_request` call together with the ordered trace of network
exchanges it performed. -/
structure ReqResult where
  result : ReqOutcome
  events : List Event
deriving DecidableEq, Repr

/-- The relevant state and configuration of a `SelfAsyncService` instance.
`loginToken` is the access token held after `get_tokens_by_login` ran;
`authFmtPre ++ token ++ authFmtPost` embeds
`header_auth_format.format(token)` for a format with one placeholder
(default `Bearer ` and the empty suffix). -/
structure Ctx where
  selfService : Service
  selfHeaders : Headers
  accessToken : String
  loginToken : String
  defaultTimeout : ℚ := 3
  defaultMaxReconnections : Int := 3
  defaultUseAuthToken : Bool := true
  authFmtPre : String := "Bearer "
  authFmtPost : String := ""
deriving DecidableEq, Repr

/-- The effective timeout:
`self.default_timeout if timeout is None else int(timeout)`. -/
def effTimeout (ctx : Ctx) (timeout : Option ℚ) : ℚ :=
  match timeout with
  | none => ctx.defaultTimeout
  | some q => ((pyInt q : Int) : ℚ)

/-- The effective reconnection budget:
`self.default_max_reconnections if max_reconnections is None else int(...)`. -/
def effMaxRec (ctx : Ctx) (maxRec : Option Int) : Int :=
  match maxRec with
  | none => ctx.defaultMaxReconnections
  | some n => n

/-- The effective auth toggle. -/
def effUseAuth (ctx : Ctx) (useAuthArg : Option Bool) : Bool :=
  match useAuthArg with
  | none => ctx.defaultUseAuthToken
  | some b => b

/-- The header-building block of `_request` (core.py:455-464), returning the
effective header dict together with the network exchanges it performed.
A truthy `headers` argument is used verbatim; otherwise the instance
defaults are merged with a truthy `add_headers`, and if auth is enabled an
`Authorization` header is synthesized from the access token, first running
`get_tokens_by_login()` (a network exchange) when the token is the empty
string `NULL`. -/
def effectiveHeaders (ctx : Ctx) (addHeaders headersArg : Option Headers)
    (useAuth : Bool) : Headers × List Event :=
  if pyTruthyList headersArg then (headersArg.getD [], [])
  else
    let base :=
      if pyTruthyList addHeaders then dictMerge ctx.selfHeaders (addHeaders.getD [])
      else ctx.selfHeaders
    if useAuth then
      if ctx.accessToken == "" then
        (dictInsert base "Authorization" (ctx.authFmtPre ++ ctx.loginToken ++ ctx.authFmtPost),
          [Event.tokenLogin])
      else
        (dictInsert base "Authorization" (ctx.authFmtPre ++ ctx.accessToken ++ ctx.authFmtPost),
          [])
    else (base, [])

/-- The token-expiry self-healing guard of `_request` (core.py:499-500),
exactly as written: `httpx_response.status_code == ErrorCode.JWT_EXPIRED or
httpx_response.status_code == ErrorCode.JWT_INVALID`, a Python `==`
between the `int` status code and a string-valued `Enum` member. -/
def jwtRetryCond (status : Int) : Bool :=
  pyEq (.int status) (.enumMember .JWT_EXPIRED) ||
    pyEq (.int status) (.enumMember .JWT_INVALID)

/-- The effective header dict of one `_request` call. -/
def mergedHeaders (ctx : Ctx) (addHeaders headersArg : Option Headers)
    (useAuthArg : Option Bool) : Headers :=
  (effectiveHeaders ctx addHeaders headersArg (effUseAuth ctx useAuthArg)).1

/-- The network exchanges the header-building block of one `_request` call
performs before the reconnection loop starts. -/
def preEvents (ctx : Ctx) (addHeaders headersArg : Option Headers)
    (useAuthArg : Option Bool) : List Event :=
  (effectiveHeaders ctx addHeaders headersArg (effUseAuth ctx useAuthArg)).2

/-- The reconnection loop of one `_request` call. -/
def loopRun (ctx : Ctx) (env : Nat → Outcome) (service : Service)
    (maxRec : Option Int) : LoopResult :=
  attemptLoop service env (effMaxRec ctx maxRec).toNat

/-- The network exchanges of one `_request` call up to the end of the
reconnection loop. -/
def loopEvents (ctx : Ctx) (env : Nat → Outcome) (service : Service)
    (addHeaders headersArg : Option Headers) (maxRec : Option Int)
    (useAuthArg : Option Bool) : List Event :=
  preEvents ctx addHeaders headersArg useAuthArg
    ++ List.replicate (loopRun ctx env service maxRec).attempts Event.httpAttempt

/-- Embedding of `SelfAsyncService._request` (core.py:410-542). `env` gives
the backend behaviour of each attempt of the reconnection loop; `fuel`
bounds the recursion of the JWT-refresh replay (the Python source recurses
without a bound). The `url` and `method` arguments are carried for
faithfulness of the signature; they only flow into the HTTP call and the
log line. -/
def requestExec (ctx : Ctx) (env : Nat → Outcome) (fuel : Nat) (service : Service)
    (url method : String) (addHeaders headersArg : Option Headers)
    (maxRec : Option Int) (timeout : Option ℚ) (useAuthArg : Option Bool) : ReqResult :=
  if service = ctx.selfService then ⟨.raised .selfRequest, []⟩
  else if effTimeout ctx timeout < 0 then ⟨.raised .badTimeout, []⟩
  else if effMaxRec ctx maxRec < 2 then ⟨.raised .badMaxReconnections, []⟩
  else if hasDuplicateValues (mergedHeaders ctx addHeaders headersArg useAuthArg) then
    ⟨.raised .duplicateHeaders, preEvents ctx addHeaders headersArg useAuthArg⟩
  else if (loopRun ctx env service maxRec).exitIdx + 1 = (effMaxRec ctx maxRec).toNat then
    ⟨.raised (.connectionError service (effMaxRec ctx maxRec) (effTimeout ctx timeout)),
      loopEvents ctx env service addHeaders headersArg maxRec useAuthArg⟩
  else
    if (loopRun ctx env service maxRec).lastStatus = none then
      ⟨.raised .unboundResponse,
        loopEvents ctx env service addHeaders headersArg maxRec useAuthArg⟩
    else if jwtRetryCond ((loopRun ctx env service maxRec).lastStatus.getD 0) then
      match fuel with
      | 0 =>
        ⟨.raised .fuelExhausted,
          loopEvents ctx env service addHeaders headersArg maxRec useAuthArg
            ++ [Event.refresh]⟩
      | fuel1 + 1 =>
        ⟨(requestExec ctx env fuel1 service url method addHeaders
            (some (mergedHeaders ctx addHeaders headersArg useAuthArg))
            (some (effMaxRec ctx maxRec)) (some (effTimeout ctx timeout))
            (some (effUseAuth ctx useAuthArg))).result,
          loopEvents ctx env service addHeaders headersArg maxRec useAuthArg
            ++ Event.refresh
            :: (requestExec ctx env fuel1 service url method addHeaders
                (some (mergedHeaders ctx addHeaders headersArg useAuthArg))
                (some (effMaxRec ctx maxRec)) (some (effTimeout ctx timeout))
                (some (effUseAuth ctx useAuthArg))).events⟩
    else
      ⟨.returned (classifyStatus ((loopRun ctx env service maxRec).lastStatus.getD 0)),
        loopEvents ctx env service addHeaders headersArg maxRec useAuthArg⟩

/-- The full `Response` value handled by the GET/POST facade: status,
headers, the error flag, and a typed GraphQL body. -/
structure GqlResponse where
  statusCode : Int
  headers : Headers
  isError : Bool
  body : GqlBody
deriving DecidableEq, Repr

/-- Observable behaviour of one `post_request` call: the returned response
(or a raised decode error on a garbage cache hit), whether `_request` was
invoked (an HTTP call), and the `cache.set` call performed, as
`(key, value, ttl argument)`. -/
structure PostRun where
  response : PyResult GqlResponse
  httpCalled : Bool
  cacheWrite : Option (String × CacheVal × Option Int)
deriving DecidableEq, Repr

/-- The GraphQL cache key of `post_request` (core.py:639):
`str(url + str(post_data.json_))`, the URL concatenated with the
serialized request body. -/
def gqlCacheKey (url bodyStr : String) : String := url ++ bodyStr

/-- Embedding of the caching slice of `SelfAsyncService.post_request`
(core.py:599-665). `cacheGet` is the content behind `self.cache.get`;
`bodyStr` is `str(post_data.json_)`; `fieldList` is the field list of the
caller-specified `response_type` model; `httpResp` is the response
`_request` would return. `use_graphql_cache` goes through `bool(...)`, so
`None` becomes `False` and the default toggle is consulted. -/
def post_request (cacheGet : String → Option CacheVal) (url bodyStr : String)
    (isGraphql : Bool) (useGraphqlCacheArg : Option Bool)
    (defaultUseGraphqlCache : Bool) (fieldList : List String)
    (gqlCacheLifetime : Option Int) (httpResp : GqlResponse) : PostRun :=
  let useGql : Bool := match useGraphqlCacheArg with | none => false | some b => b
  let useCache := isGraphql && (useGql || defaultUseGraphqlCache)
  let key := gqlCacheKey url bodyStr
  let missRun : PostRun :=
    ⟨.ok httpResp, true,
      if useCache && !httpResp.isError then
        some (key,
          .respBytes ⟨httpResp.statusCode, httpResp.headers, httpResp.isError,
            stripBody httpResp.body⟩,
          gqlCacheLifetime)
      else none⟩
  match (if useCache then cacheGet key else none) with
  | some v =>
    if v.truthy then
      match v with
      | .respBytes r =>
        ⟨.ok ⟨r.statusCode, r.headers, r.isError, rehydrateBody fieldList r.body⟩,
          false, none⟩
      | _ => ⟨.exn, false, none⟩
    else missRun
  | none => missRun

/-! Concrete instances used by the claim theorems and their witnesses. -/

/-- A client whose access token is already populated. -/
def ctxTok : Ctx := ⟨Service.test, [], "tok", "tok", 3, 3, true, "Bearer ", ""⟩

/-- A client with the `NULL` (empty) access token and one default header. -/
def ctxNull : Ctx := ⟨Service.test, [("X-C", "v")], "", "tok2", 3, 3, true, "Bearer ", ""⟩

/-- A backend on which every attempt raises `ConnectError`. -/
def envConn : Nat → Outcome := fun _ => Outcome.connectError

/-- A backend that fails once with `ConnectError` and then completes the
exchange with status 200 and a verified authorization header. -/
def envConnThenOk : Nat → Outcome :=
  fun j => if j = 0 then .connectError else .exchange 200 (some "h") true

/-- The rational -1/2, used as a fractional negative timeout. -/
def negHalf : ℚ := ⟨-1, 2, by decide, by decide⟩

/-- A service token payload whose expiry equals the observation instant. -/
def pExpNow : ServiceAccessTokenPayload := ⟨"authentication", Service.books, 1000, 900, "r"⟩

/-- A service payload expiring after the observation instant. -/
def pW : ServiceAccessTokenPayload := ⟨"authentication", Service.books, 2000, 900, "r"⟩

/-- A client payload expiring after the observation instant. -/
def qW : ClientAccessTokenPayload := ⟨"users", "u1", 3000, 900, "member"⟩

/-- A cache holding a validated service payload, a validated client
payload, and negative sentinels for a second token. -/
def cacheW : CacheStore :=
  [("tokSERVICE", .svcPayload pW), ("tok2SERVICE", .sentinel),
   ("tokCLIENT", .clientPayload qW), ("tok2CLIENT", .sentinel)]

/-- A backend whose every `set` call raises. -/
def bsetExn : CacheStore → String → CacheVal → Int → PyResult CacheStore :=
  fun _ _ _ _ => .exn

/-- A backend whose every `get` call raises. -/
def bgetExn : CacheStore → String → PyResult (Option CacheVal) :=
  fun _ _ => .exn

/-- A cache holding exactly the entry a first successful GraphQL call would
have stored under its key. -/
def cacheWith (url b : String) (r : CachedResponse) : String → Option CacheVal :=
  fun k => if k = gqlCacheKey url b then some (.respBytes r) else none

/-- A concrete typed GraphQL response for the witness: two requested
fields, both present. -/
def respW : GqlResponse :=
  ⟨200, [("Content-Type", "json")], false, [("id", some "1"), ("title", some "t")]⟩

/-- A concrete response for the fresh call with different variables. -/
def respW2 : GqlResponse :=
  ⟨200, [("Content-Type", "json")], false, [("id", some "2"), ("title", some "u")]⟩

/-! Helper lemmas shared by several claim theorems. -/

/-- Appending to a fixed string on the left is injective, so distinct
serialized request bodies give distinct GraphQL cache keys for one URL. -/
theorem string_append_left_cancel (u b b2 : String) (h : u ++ b = u ++ b2) : b = b2 := by
  have hd : u.data ++ b.data = u.data ++ b2.data := congrArg String.data h
  have hbb := List.append_cancel_left hd
  cases b; cases b2; exact congrArg String.mk hbb

/-- When every attempt raises `ConnectError`, the loop runs to exhaustion:
it performs every remaining iteration, never binds a response, and exits
with the final index. -/
theorem attemptGo_allConnect (service : Service) (env : Nat → Outcome)
    (h : ∀ j, env j = .connectError) :
    ∀ (rem i att : Nat) (ls : Option Int),
      attemptGo service env i rem ls att = ⟨i + rem - 1, att + rem, ls, false⟩ := by
  intro rem
  induction rem with
  | zero => intro i att ls; simp [attemptGo]
  | succ r ih =>
      intro i att ls
      have hc := h i
      simp only [attemptGo, hc]
      rw [ih (i + 1) (att + 1) ls]
      have h1 : i + 1 + r - 1 = i + (r + 1) - 1 := by omega
      have h2 : att + 1 + r = att + (r + 1) := by omega
      rw [h1, h2]

/-- A run of `k` consecutive `ConnectError` attempts advances the loop by
`k` iterations. -/
theorem attemptGo_connectRun (service : Service) (env : Nat → Outcome) :
    ∀ (k rem i att : Nat) (ls : Option Int),
      (∀ j, i ≤ j → j < i + k → env j = .connectError) →
      attemptGo service env i (k + rem) ls att
        = attemptGo service env (i + k) rem ls (att + k) := by
  intro k
  induction k with
  | zero => intro rem i att ls _; simp
  | succ r ih =>
      intro rem i att ls h
      have hc : env i = .connectError := h i (Nat.le_refl i) (by omega)
      have hstep : r + 1 + rem = (r + rem) + 1 := by omega
      rw [hstep]
      simp only [attemptGo, hc]
      have := ih rem (i + 1) (att + 1) ls (fun j hj1 hj2 => h j (by omega) (by omega))
      rw [this]
      have h1 : i + 1 + r = i + (r + 1) := by omega
      have h2 : att + 1 + r = att + (r + 1) := by omega
      rw [h1, h2]

/-- The header-building block emits at most the single `get_tokens_by_login`
exchange: every event it produces is `tokenLogin`. -/
theorem effectiveHeaders_events (ctx : Ctx) (addHeaders headersArg : Option Headers)
    (useAuth : Bool) :
    ∀ e ∈ (effectiveHeaders ctx addHeaders headersArg useAuth).2, e = Event.tokenLogin := by
  intro e he
  unfold effectiveHeaders at he
  repeat' split at he
  all_goals simp_all

/-- The refresh event never occurs in the header-building block. -/
theorem effectiveHeaders_no_refresh (ctx : Ctx) (addHeaders headersArg : Option Headers)
    (useAuth : Bool) :
    Event.refresh ∉ (effectiveHeaders ctx addHeaders headersArg useAuth).2 := by
  intro h
  have := effectiveHeaders_events ctx addHeaders headersArg useAuth Event.refresh h
  simp at this

/-- Looking a key up in a stripped body whose fields all differ from it
finds nothing. -/
theorem find_stripBody_none : ∀ (b : GqlBody) (k : String), (∀ x ∈ b, x.1 ≠ k) →
    (stripBody b).find? (fun p => p.1 == k) = none
  | [], _, _ => rfl
  | (f, ov) :: tl, k, h => by
      have hf : f ≠ k := h (f, ov) (List.mem_cons_self _ _)
      have htl : ∀ x ∈ tl, x.1 ≠ k := fun x hx => h x (List.mem_cons_of_mem _ hx)
      cases ov with
      | none =>
          have hcons : stripBody ((f, none) :: tl) = stripBody tl := rfl
          rw [hcons]
          exact find_stripBody_none tl k htl
      | some v =>
          have hcons : stripBody ((f, some v) :: tl) = (f, v) :: stripBody tl := rfl
          have hfind : List.find? (fun p => p.1 == k) ((f, v) :: stripBody tl)
              = List.find? (fun p => p.1 == k) (stripBody tl) :=
            List.find?_cons_of_neg _ (by simp [hf])
          rw [hcons, hfind]
          exact find_stripBody_none tl k htl

/-- Re-hydration ignores a stored field whose name is outside the field
list of the model class. -/
theorem rehydrateBody_cons_out (fields : List String) (k v : String)
    (d : List (String × String)) (h : k ∉ fields) :
    rehydrateBody fields ((k, v) :: d) = rehydrateBody fields d := by
  unfold rehydrateBody
  apply List.map_congr_left
  intro f hf
  have hk : ¬ ((k, v).1 == f) = true := by
    simp only [beq_iff_eq]
    intro e
    exact h (e ▸ hf)
  have hfind : List.find? (fun p => p.1 == f) ((k, v) :: d)
      = List.find? (fun p => p.1 == f) d :=
    List.find?_cons_of_neg d hk
  rw [hfind]

/-- Stripping the `EmptyField` markers from a typed body and re-hydrating
the stored dict through the model class restores the original body, for a
body whose field names are exactly the model fields, without repeats. -/
theorem rehydrateBody_stripBody : ∀ (b : GqlBody), (b.map Prod.fst).Nodup →
    rehydrateBody (b.map Prod.fst) (stripBody b) = b
  | [], _ => rfl
  | (f, ov) :: tl, h => by
      have hnotin : f ∉ tl.map Prod.fst := (List.nodup_cons.mp h).1
      have htl : (tl.map Prod.fst).Nodup := (List.nodup_cons.mp h).2
      have hne : ∀ x ∈ tl, x.1 ≠ f := by
        intro x hx he
        exact hnotin (he ▸ List.mem_map_of_mem Prod.fst hx)
      cases ov with
      | some v =>
          show rehydrateBody (f :: tl.map Prod.fst) ((f, v) :: stripBody tl)
            = (f, some v) :: tl
          unfold rehydrateBody
          simp only [List.map_cons]
          have hfind : List.find? (fun p => p.1 == f) ((f, v) :: stripBody tl)
              = some (f, v) :=
            List.find?_cons_of_pos _ (by simp)
          rw [hfind]
          have htail := rehydrateBody_cons_out (tl.map Prod.fst) f v (stripBody tl) hnotin
          unfold rehydrateBody at htail
          rw [htail]
          have := rehydrateBody_stripBody tl htl
          unfold rehydrateBody at this
          rw [this]
          simp
      | none =>
          show rehydrateBody (f :: tl.map Prod.fst) (stripBody tl) = (f, none) :: tl
          unfold rehydrateBody
          simp only [List.map_cons]
          rw [find_stripBody_none tl f hne]
          have := rehydrateBody_stripBody tl htl
          unfold rehydrateBody at this
          rw [this]
          simp

/-! Claim theorems. -/

/-- C7: for every configuration, environment, path and method, calling the
executor with the target service equal to the own service identity raises
the fatal self-request error and performs no network exchange at all. -/
theorem selfRequestGuard (ctx : Ctx) (env : Nat → Outcome) (fuel : Nat)
    (url method : String) (addHeaders headersArg : Option Headers)
    (maxRec : Option Int) (timeout : Option ℚ) (useAuthArg : Option Bool) :
    requestExec ctx env fuel ctx.selfService url method addHeaders headersArg
        maxRec timeout useAuthArg
      = ⟨.raised .selfRequest, []⟩ := by
  rw [requestExec.eq_def]
  simp

/-- The JWT-expiry guard compares the integer status code against a
string-valued `Enum` member, which is `False` for every status code. -/
theorem jwtRetryCond_eq_false (s : Int) : jwtRetryCond s = false := rfl

/-- Every event of the header-building block is `tokenLogin`. -/
theorem preEvents_tokenLogin (ctx : Ctx) (addHeaders headersArg : Option Headers)
    (useAuthArg : Option Bool) :
    ∀ e ∈ preEvents ctx addHeaders headersArg useAuthArg, e = Event.tokenLogin :=
  effectiveHeaders_events ctx addHeaders headersArg (effUseAuth ctx useAuthArg)

/-- The header-building block performs no HTTP attempt. -/
theorem preEvents_count_httpAttempt (ctx : Ctx) (addHeaders headersArg : Option Headers)
    (useAuthArg : Option Bool) :
    (preEvents ctx addHeaders headersArg useAuthArg).count Event.httpAttempt = 0 := by
  rw [List.count_eq_zero]
  intro hmem
  have := preEvents_tokenLogin ctx addHeaders headersArg useAuthArg Event.httpAttempt hmem
  simp at this

/-- No refresh exchange occurs among the loop-phase events. -/
theorem loopEvents_no_refresh (ctx : Ctx) (env : Nat → Outcome) (service : Service)
    (addHeaders headersArg : Option Headers) (maxRec : Option Int)
    (useAuthArg : Option Bool) :
    Event.refresh ∉ loopEvents ctx env service addHeaders headersArg maxRec useAuthArg := by
  intro h
  rcases List.mem_append.mp h with h1 | h1
  · have := preEvents_tokenLogin ctx addHeaders headersArg useAuthArg Event.refresh h1
    simp at this
  · have := List.eq_of_mem_replicate h1
    simp at this

/-- Because the JWT guard is identically false, no execution of the
executor ever emits a token-refresh exchange. -/
theorem requestExec_no_refresh (ctx : Ctx) (env : Nat → Outcome) (fuel : Nat)
    (service : Service) (url method : String) (addHeaders headersArg : Option Headers)
    (maxRec : Option Int) (timeout : Option ℚ) (useAuthArg : Option Bool) :
    Event.refresh ∉ (requestExec ctx env fuel service url method addHeaders headersArg
      maxRec timeout useAuthArg).events := by
  intro h
  rw [requestExec.eq_def] at h
  split at h
  · simp at h
  · split at h
    · simp at h
    · split at h
      · simp at h
      · split at h
        · exact effectiveHeaders_events _ _ _ _ _ h |> fun hx => by simp at hx
        · split at h
          · exact loopEvents_no_refresh _ _ _ _ _ _ _ h
          · split at h
            · exact loopEvents_no_refresh _ _ _ _ _ _ _ h
            · split at h
              · rename_i hc
                rw [jwtRetryCond_eq_false] at hc
                simp at hc
              · exact loopEvents_no_refresh _ _ _ _ _ _ _ h

/-- C1: the JWT-expiry replay is dead code. The guard compares the `int`
status code with a string-valued `Enum` member, which is `False` for every
integer, so no execution of the executor ever triggers a token refresh
cycle or a replay; in particular a completed exchange whose status is
meant as a JWT sentinel (here 452) is simply classified as a 4xx error
response. This contradicts the claimed behaviour of exactly one refresh
cycle and one replay. -/
theorem jwtRefreshBranchDead :
    (∀ s : Int, jwtRetryCond s = false)
    ∧ (∀ (ctx : Ctx) (env : Nat → Outcome) (fuel : Nat) (service : Service)
        (url method : String) (addHeaders headersArg : Option Headers)
        (maxRec : Option Int) (timeout : Option ℚ) (useAuthArg : Option Bool),
        Event.refresh ∉ (requestExec ctx env fuel service url method addHeaders headersArg
          maxRec timeout useAuthArg).events)
    ∧ requestExec ctxTok (fun _ => Outcome.exchange 452 (some "h") true) 5 Service.books
        "url-books" "POST" none (some [("A", "a")]) none none (some false)
      = ⟨.returned (.err4xx 452), [Event.httpAttempt]⟩ :=
  ⟨jwtRetryCond_eq_false, requestExec_no_refresh, by decide⟩

/-- C2: when every attempt raises a connection failure, the executor makes
exactly `max_reconnections` HTTP attempts and then raises the connection
error carrying the target service, the attempt count and the effective
timeout; no response is returned. -/
theorem retryBudgetExhaustion (ctx : Ctx) (env : Nat → Outcome) (fuel : Nat)
    (service : Service) (url method : String) (addHeaders headersArg : Option Headers)
    (m : Int) (timeout : Option ℚ) (useAuthArg : Option Bool)
    (hsvc : ¬ service = ctx.selfService) (hm : 2 ≤ m)
    (ht : ¬ effTimeout ctx timeout < 0)
    (hdup : hasDuplicateValues (mergedHeaders ctx addHeaders headersArg useAuthArg) = false)
    (henv : ∀ j, env j = .connectError) :
    requestExec ctx env fuel service url method addHeaders headersArg (some m) timeout
        useAuthArg
      = ⟨.raised (.connectionError service m (effTimeout ctx timeout)),
          preEvents ctx addHeaders headersArg useAuthArg
            ++ List.replicate m.toNat Event.httpAttempt⟩
    ∧ (requestExec ctx env fuel service url method addHeaders headersArg (some m) timeout
        useAuthArg).events.count Event.httpAttempt = m.toNat := by
  have hmr : effMaxRec ctx (some m) = m := rfl
  have hm2 : ¬ effMaxRec ctx (some m) < 2 := by rw [hmr]; omega
  have hloop : loopRun ctx env service (some m) = ⟨m.toNat - 1, m.toNat, none, false⟩ := by
    unfold loopRun attemptLoop
    rw [hmr, attemptGo_allConnect service env henv m.toNat 0 0 none]
    simp
  have hexit : (loopRun ctx env service (some m)).exitIdx + 1
      = (effMaxRec ctx (some m)).toNat := by
    rw [hloop, hmr]
    show m.toNat - 1 + 1 = m.toNat
    omega
  have hev : loopEvents ctx env service addHeaders headersArg (some m) useAuthArg
      = preEvents ctx addHeaders headersArg useAuthArg
        ++ List.replicate m.toNat Event.httpAttempt := by
    unfold loopEvents
    rw [hloop]
  have hmain : requestExec ctx env fuel service url method addHeaders headersArg (some m)
      timeout useAuthArg
      = ⟨.raised (.connectionError service m (effTimeout ctx timeout)),
          preEvents ctx addHeaders headersArg useAuthArg
            ++ List.replicate m.toNat Event.httpAttempt⟩ := by
    rw [requestExec.eq_def, if_neg hsvc, if_neg ht, if_neg hm2, if_neg (by simp [hdup]),
      if_pos hexit, hmr, hev]
  refine ⟨hmain, ?_⟩
  rw [hmain]
  simp [List.count_append, preEvents_count_httpAttempt, List.count_replicate_self]

/-- Witness for C2 at a concrete input: budget 3 against an always-failing
backend gives three attempts and the connection error naming service,
budget and timeout. -/
theorem retryBudgetExhaustion_witness :
    requestExec ctxTok envConn 5 Service.books "u" "m" none (some [("A", "a")]) (some 3)
        none (some false)
      = ⟨.raised (.connectionError Service.books 3 3),
          [Event.httpAttempt, Event.httpAttempt, Event.httpAttempt]⟩
    ∧ (requestExec ctxTok envConn 5 Service.books "u" "m" none (some [("A", "a")]) (some 3)
        none (some false)).events.count Event.httpAttempt = 3 := by
  have h := retryBudgetExhaustion ctxTok envConn 5 Service.books "u" "m" none
    (some [("A", "a")]) 3 none (some false) (by decide) (by decide) (by decide) (by decide)
    (fun _ => rfl)
  exact ⟨h.1.trans (by decide), h.2⟩

/-- C10: when the first `max_reconnections - 1` attempts fail retryably and
the final attempt completes the HTTP exchange (here: with an authorization
header and successful responder verification, so the loop breaks), the
executor still raises the connection error, because the post-loop test
`i + 1 == max_reconnections` also holds when the loop broke at the final
index. No response is returned. -/
theorem finalAttemptSuccessStillRaises (ctx : Ctx) (env : Nat → Outcome) (fuel : Nat)
    (service : Service) (url method : String) (addHeaders headersArg : Option Headers)
    (m : Int) (timeout : Option ℚ) (useAuthArg : Option Bool) (s : Int) (hdr : String)
    (hsvc : ¬ service = ctx.selfService) (hm : 2 ≤ m)
    (ht : ¬ effTimeout ctx timeout < 0)
    (hdup : hasDuplicateValues (mergedHeaders ctx addHeaders headersArg useAuthArg) = false)
    (henvPre : ∀ j, j < m.toNat - 1 → env j = .connectError)
    (henvLast : env (m.toNat - 1) = .exchange s (some hdr) true) :
    requestExec ctx env fuel service url method addHeaders headersArg (some m) timeout
        useAuthArg
      = ⟨.raised (.connectionError service m (effTimeout ctx timeout)),
          preEvents ctx addHeaders headersArg useAuthArg
            ++ List.replicate m.toNat Event.httpAttempt⟩ := by
  have hmr : effMaxRec ctx (some m) = m := rfl
  have hm2 : ¬ effMaxRec ctx (some m) < 2 := by rw [hmr]; omega
  have hone : m.toNat - 1 + 1 = m.toNat := by omega
  have hloop : loopRun ctx env service (some m) = ⟨m.toNat - 1, m.toNat, some s, true⟩ := by
    unfold loopRun attemptLoop
    rw [hmr]
    conv_lhs => rw [← hone]
    rw [attemptGo_connectRun service env (m.toNat - 1) 1 0 0 none
      (fun j _ hj2 => henvPre j (by omega))]
    simp only [Nat.zero_add]
    simp only [attemptGo, henvLast, ite_self, Bool.or_true, if_true]
    rw [hone]
  have hexit : (loopRun ctx env service (some m)).exitIdx + 1
      = (effMaxRec ctx (some m)).toNat := by
    rw [hloop, hmr]
    exact hone
  have hev : loopEvents ctx env service addHeaders headersArg (some m) useAuthArg
      = preEvents ctx addHeaders headersArg useAuthArg
        ++ List.replicate m.toNat Event.httpAttempt := by
    unfold loopEvents
    rw [hloop]
  rw [requestExec.eq_def, if_neg hsvc, if_neg ht, if_neg hm2, if_neg (by simp [hdup]),
    if_pos hexit, hmr, hev]

/-- Witness for C10 at a concrete input: budget 2, one connect failure and
then a fully successful final attempt, yet the connection error is
raised. -/
theorem finalAttemptSuccessStillRaises_witness :
    requestExec ctxTok envConnThenOk 5 Service.books "u" "m" none (some [("A", "a")])
        (some 2) none (some false)
      = ⟨.raised (.connectionError Service.books 2 3),
          [Event.httpAttempt, Event.httpAttempt]⟩ := by
  have h := finalAttemptSuccessStillRaises ctxTok envConnThenOk 5 Service.books "u" "m"
    none (some [("A", "a")]) 2 none (some false) 200 "h" (by decide) (by decide)
    (by decide) (by decide)
    (fun j hj => by
      have hj0 : j = 0 := by omega
      subst hj0
      rfl)
    rfl
  exact h.trans (by decide)

/-- C8 counterexample: the duplicate-headers error is raised, but not
before every network call. With an absent access token and auth enabled,
the header-building block first performs the `get_tokens_by_login`
network exchange and only then the duplicate check runs: the trace of
exchanges before the raise is nonempty. -/
theorem duplicateHeadersAfterLogin_cex :
    requestExec ctxNull envConn 5 Service.books "u" "m"
        (some [("X-A", "v"), ("X-B", "v")]) none none none none
      = ⟨.raised .duplicateHeaders, [Event.tokenLogin]⟩
    ∧ ([Event.tokenLogin] : List Event) ≠ [] := by decide

/-- C8 amended: whenever the effective header dict carries one value under
two or more names, the executor raises the duplicate-headers error before
any HTTP attempt of the request itself; the only network exchange that can
precede the raise is the token-fetch-by-login triggered by an absent
access token. -/
theorem duplicateHeadersGuard (ctx : Ctx) (env : Nat → Outcome) (fuel : Nat)
    (service : Service) (url method : String) (addHeaders headersArg : Option Headers)
    (maxRec : Option Int) (timeout : Option ℚ) (useAuthArg : Option Bool)
    (hsvc : ¬ service = ctx.selfService)
    (ht : ¬ effTimeout ctx timeout < 0)
    (hm : ¬ effMaxRec ctx maxRec < 2)
    (hdup : hasDuplicateValues (mergedHeaders ctx addHeaders headersArg useAuthArg) = true) :
    requestExec ctx env fuel service url method addHeaders headersArg maxRec timeout
        useAuthArg
      = ⟨.raised .duplicateHeaders, preEvents ctx addHeaders headersArg useAuthArg⟩
    ∧ (requestExec ctx env fuel service url method addHeaders headersArg maxRec timeout
        useAuthArg).events.count Event.httpAttempt = 0
    ∧ ∀ e ∈ (requestExec ctx env fuel service url method addHeaders headersArg maxRec
        timeout useAuthArg).events, e = Event.tokenLogin := by
  have hmain : requestExec ctx env fuel service url method addHeaders headersArg maxRec
      timeout useAuthArg
      = ⟨.raised .duplicateHeaders, preEvents ctx addHeaders headersArg useAuthArg⟩ := by
    rw [requestExec.eq_def, if_neg hsvc, if_neg ht, if_neg hm, if_pos hdup]
  refine ⟨hmain, ?_, ?_⟩
  · rw [hmain]
    exact preEvents_count_httpAttempt ctx addHeaders headersArg useAuthArg
  · rw [hmain]
    exact preEvents_tokenLogin ctx addHeaders headersArg useAuthArg

/-- Witness for the amended C8 at a concrete input: duplicate values among
additional headers with a populated token raise immediately with an empty
exchange trace. -/
theorem duplicateHeadersGuard_witness :
    requestExec ctxTok envConn 5 Service.books "u" "m"
        (some [("X-A", "v"), ("X-B", "v")]) none none none (some false)
      = ⟨.raised .duplicateHeaders, []⟩
    ∧ (requestExec ctxTok envConn 5 Service.books "u" "m"
        (some [("X-A", "v"), ("X-B", "v")]) none none none (some false)).events.count
          Event.httpAttempt = 0 := by
  have h := duplicateHeadersGuard ctxTok envConn 5 Service.books "u" "m"
    (some [("X-A", "v"), ("X-B", "v")]) none none none (some false) (by decide)
    (by decide) (by decide) (by decide)
  exact ⟨h.1.trans (by decide), h.2.1⟩

/-- C9 counterexample: the timeout argument -1/2 is strictly negative, yet
the executor does not raise the argument-validation error: `int(timeout)`
truncates toward zero, the truncated value 0 passes the `< 0` check, and
the request proceeds to the network and returns a response. -/
theorem timeoutValidation_cex :
    negHalf < 0
    ∧ pyInt negHalf = 0
    ∧ requestExec ctxTok (fun _ => Outcome.exchange 200 (some "h") true) 5 Service.books
        "u" "m" none (some [("A", "a")]) none (some negHalf) (some false)
      = ⟨.returned (.success 200), [Event.httpAttempt]⟩
    ∧ (requestExec ctxTok (fun _ => Outcome.exchange 200 (some "h") true) 5 Service.books
        "u" "m" none (some [("A", "a")]) none (some negHalf) (some false)).result
      ≠ .raised .badTimeout := by decide

/-- C9 amended: the executor raises the timeout validation error, before
any network exchange, exactly when the zero-truncation `int(timeout)` of
the timeout argument is negative (equivalently, timeout <= -1); and for
every `max_reconnections` argument below 2 it raises the reconnection
validation error before any network exchange. -/
theorem argValidationGuard (ctx : Ctx) (env : Nat → Outcome) (fuel : Nat)
    (service : Service) (url method : String) (addHeaders headersArg : Option Headers)
    (useAuthArg : Option Bool)
    (hsvc : ¬ service = ctx.selfService) :
    (∀ q : ℚ, pyInt q < 0 →
      requestExec ctx env fuel service url method addHeaders headersArg none (some q)
          useAuthArg
        = ⟨.raised .badTimeout, []⟩)
    ∧ (∀ (m : Int) (timeout : Option ℚ), ¬ effTimeout ctx timeout < 0 → m < 2 →
      requestExec ctx env fuel service url method addHeaders headersArg (some m) timeout
          useAuthArg
        = ⟨.raised .badMaxReconnections, []⟩) := by
  constructor
  · intro q hq
    have hneg : effTimeout ctx (some q) < 0 := by
      show ((pyInt q : Int) : ℚ) < 0
      exact_mod_cast hq
    rw [requestExec.eq_def, if_neg hsvc, if_pos hneg]
  · intro m timeout ht hm
    have hmr : effMaxRec ctx (some m) < 2 := hm
    rw [requestExec.eq_def, if_neg hsvc, if_neg ht, if_pos hmr]

/-- Witness for the amended C9 at concrete inputs: timeout -1 raises the
timeout error and budget 1 raises the reconnection error. -/
theorem argValidationGuard_witness :
    requestExec ctxTok envConn 5 Service.books "u" "m" none (some [("A", "a")]) none
        (some (-1 : ℚ)) (some false)
      = ⟨.raised .badTimeout, []⟩
    ∧ requestExec ctxTok envConn 5 Service.books "u" "m" none (some [("A", "a")]) (some 1)
        none (some false)
      = ⟨.raised .badMaxReconnections, []⟩ := by
  have h := argValidationGuard ctxTok envConn 5 Service.books "u" "m" none
    (some [("A", "a")]) (some false) (by decide)
  exact ⟨h.1 (-1 : ℚ) (by decide), h.2 1 none (by decide) (by decide)⟩

/-- C3 counterexample: a token verified successfully at the very second of
its expiry is written with TTL argument `exp - now = 0`, but `0` is falsy
in Python, so both backends substitute the default lifetime (60): the
entry lives 60 seconds although the token is already expired, so the
effective TTL is not `exp - now`. -/
theorem verifyCacheTTL_cex :
    (service_verify [] "tok" none (some pExpNow) 1000).cacheWrite
      = some ("tok" ++ TokenBearer.service.value, .svcPayload pExpNow,
          some (pExpNow.exp - 1000))
    ∧ pExpNow.exp - 1000 = 0
    ∧ effectiveTTL 60 (some (pExpNow.exp - 1000)) = 60
    ∧ effectiveTTL 60 (some (pExpNow.exp - 1000)) ≠ pExpNow.exp - 1000 := by decide

/-- C3 amended: on a cache miss, a successful verification writes the
payload with TTL argument `exp - now`, and the backend applies exactly
this TTL whenever `exp - now` is nonzero (when `exp = now` the falsy zero
is replaced by the default lifetime); a failed verification writes the
negative sentinel with the `None` TTL argument, which the backend turns
into the default lifetime, independent of any expiry. Both the service
and the client variant behave this way. -/
theorem verifyCacheTTL (cache : CacheStore) (token : String) (sArg : Option Service)
    (p : ServiceAccessTokenPayload) (q : ClientAccessTokenPayload) (now d : Int)
    (hs : cacheLookup cache (token ++ TokenBearer.service.value) = none)
    (hc : cacheLookup cache (token ++ TokenBearer.client.value) = none)
    (hsub : ∀ s, sArg = some s → p.sub = s) :
    service_verify cache token sArg (some p) now
      = ⟨.validService p, true,
          some (token ++ TokenBearer.service.value, .svcPayload p, some (p.exp - now))⟩
    ∧ (p.exp - now ≠ 0 → effectiveTTL d (some (p.exp - now)) = p.exp - now)
    ∧ service_verify cache token sArg none now
      = ⟨.invalid, true, some (token ++ TokenBearer.service.value, .sentinel, none)⟩
    ∧ client_verify cache token (some q) now
      = ⟨.validClient q, true,
          some (token ++ TokenBearer.client.value, .clientPayload q, some (q.exp - now))⟩
    ∧ (q.exp - now ≠ 0 → effectiveTTL d (some (q.exp - now)) = q.exp - now)
    ∧ client_verify cache token none now
      = ⟨.invalid, true, some (token ++ TokenBearer.client.value, .sentinel, none)⟩
    ∧ effectiveTTL d none = d := by
  refine ⟨?_, ?_, ?_, ?_, ?_, ?_, rfl⟩
  · unfold service_verify
    rw [hs]
    cases sArg with
    | none => rfl
    | some s =>
        have hps := hsub s rfl
        simp [hps]
  · intro h
    show (if (p.exp - now == 0) = true then d else p.exp - now) = p.exp - now
    rw [if_neg (by simp [h])]
  · unfold service_verify
    rw [hs]
  · unfold client_verify
    rw [hc]
  · intro h
    show (if (q.exp - now == 0) = true then d else q.exp - now) = q.exp - now
    rw [if_neg (by simp [h])]
  · unfold client_verify
    rw [hc]

/-- Witness for the amended C3 at concrete inputs: fresh verifications at
`now = 1000` store the payloads with effective TTLs 1000 and 2000, and a
failed verification stores the sentinel with the default TTL 60. -/
theorem verifyCacheTTL_witness :
    service_verify [] "tok" (some Service.books) (some pW) 1000
      = ⟨.validService pW, true, some ("tokSERVICE", .svcPayload pW, some 1000)⟩
    ∧ effectiveTTL 60 (some (pW.exp - 1000)) = 1000
    ∧ client_verify [] "tok" (some qW) 1000
      = ⟨.validClient qW, true, some ("tokCLIENT", .clientPayload qW, some 2000)⟩
    ∧ effectiveTTL 60 (some (qW.exp - 1000)) = 2000
    ∧ service_verify [] "tok" (some Service.books) none 1000
      = ⟨.invalid, true, some ("tokSERVICE", .sentinel, none)⟩
    ∧ effectiveTTL 60 none = 60 := by
  have h := verifyCacheTTL [] "tok" (some Service.books) pW qW 1000 60 rfl rfl
    (fun s hsw => by cases hsw; rfl)
  exact ⟨h.1.trans (by decide), (h.2.1 (by decide)).trans (by decide),
    h.2.2.2.1.trans (by decide), (h.2.2.2.2.1 (by decide)).trans (by decide),
    h.2.2.1.trans (by decide), h.2.2.2.2.2.2⟩

/-- C4: a populated cached value under the token+bearer key is decoded and
returned directly, and the cached negative sentinel returns the invalid
result immediately; in both cases no network exchange and no cache write
happen, for both the service and the client variant. -/
theorem verifyCacheHit (cache : CacheStore) (token : String) (sArg : Option Service)
    (respS : Option ServiceAccessTokenPayload) (respC : Option ClientAccessTokenPayload)
    (now : Int) (p : ServiceAccessTokenPayload) (q : ClientAccessTokenPayload) :
    (cacheLookup cache (token ++ TokenBearer.service.value) = some (.svcPayload p) →
      service_verify cache token sArg respS now = ⟨.validService p, false, none⟩)
    ∧ (cacheLookup cache (token ++ TokenBearer.service.value) = some .sentinel →
      service_verify cache token sArg respS now = ⟨.invalid, false, none⟩)
    ∧ (cacheLookup cache (token ++ TokenBearer.client.value) = some (.clientPayload q) →
      client_verify cache token respC now = ⟨.validClient q, false, none⟩)
    ∧ (cacheLookup cache (token ++ TokenBearer.client.value) = some .sentinel →
      client_verify cache token respC now = ⟨.invalid, false, none⟩) := by
  refine ⟨?_, ?_, ?_, ?_⟩
  · intro h
    unfold service_verify
    rw [h]
    rfl
  · intro h
    unfold service_verify
    rw [h]
    rfl
  · intro h
    unfold client_verify
    rw [h]
    rfl
  · intro h
    unfold client_verify
    rw [h]
    rfl

/-- Witness for C4 at concrete inputs: hits on populated and sentinel
entries return without network exchange or cache write. -/
theorem verifyCacheHit_witness :
    service_verify cacheW "tok" none none 0 = ⟨.validService pW, false, none⟩
    ∧ service_verify cacheW "tok2" none none 0 = ⟨.invalid, false, none⟩
    ∧ client_verify cacheW "tok" none 0 = ⟨.validClient qW, false, none⟩
    ∧ client_verify cacheW "tok2" none 0 = ⟨.invalid, false, none⟩ := by
  refine ⟨(verifyCacheHit cacheW "tok" none none none 0 pW qW).1 (by decide),
    (verifyCacheHit cacheW "tok2" none none none 0 pW qW).2.1 (by decide),
    (verifyCacheHit cacheW "tok" none none none 0 pW qW).2.2.1 (by decide),
    (verifyCacheHit cacheW "tok2" none none none 0 pW qW).2.2.2 (by decide)⟩

/-- C5: for every backend behaviour, the cache port operations return
normally: a backend exception in `set` leaves the store unchanged and a
backend exception in `get` yields the absent value, for both the Redis and
the Memcached port; and the request facade behaves like the uncached path
when the cache always reports absent (total unavailability). -/
theorem cachePortResilient (d : Int) (store : CacheStore) (k : String) (v : CacheVal)
    (t : Option Int) (pref : String)
    (bset : CacheStore → String → CacheVal → Int → PyResult CacheStore)
    (bget : CacheStore → String → PyResult (Option CacheVal))
    (url bodyStr : String) (isGraphql : Bool) (ug : Option Bool) (dg : Bool)
    (fl : List String) (life : Option Int) (resp : GqlResponse) :
    (∃ s1, redisSet d store bset k v t = .ok s1)
    ∧ (bset store k v (effectiveTTL d t) = .exn → redisSet d store bset k v t = .ok store)
    ∧ (∃ r, redisGet store bget k = .ok r)
    ∧ (bget store k = .exn → redisGet store bget k = .ok none)
    ∧ (∃ s1, memcachedSet d pref store bset k v t = .ok s1)
    ∧ (bset store (pref ++ k) v (effectiveTTL d t) = .exn →
        memcachedSet d pref store bset k v t = .ok store)
    ∧ (∃ r, memcachedGet pref store bget k = .ok r)
    ∧ (bget store (pref ++ k) = .exn → memcachedGet pref store bget k = .ok none)
    ∧ (post_request (fun _ => none) url bodyStr isGraphql ug dg fl life resp).response
        = .ok resp
    ∧ (post_request (fun _ => none) url bodyStr isGraphql ug dg fl life resp).httpCalled
        = true := by
  refine ⟨?_, ?_, ?_, ?_, ?_, ?_, ?_, ?_, ?_, ?_⟩
  · unfold redisSet
    cases hb : bset store k v (effectiveTTL d t) with
    | ok s1 => exact ⟨s1, rfl⟩
    | exn => exact ⟨store, rfl⟩
  · intro hb
    unfold redisSet
    rw [hb]
  · unfold redisGet
    cases hb : bget store k with
    | ok r => exact ⟨r, rfl⟩
    | exn => exact ⟨none, rfl⟩
  · intro hb
    unfold redisGet
    rw [hb]
  · unfold memcachedSet
    cases hb : bset store (pref ++ k) v (effectiveTTL d t) with
    | ok s1 => exact ⟨s1, rfl⟩
    | exn => exact ⟨store, rfl⟩
  · intro hb
    unfold memcachedSet
    rw [hb]
  · unfold memcachedGet
    cases hb : bget store (pref ++ k) with
    | ok r => exact ⟨r, rfl⟩
    | exn => exact ⟨none, rfl⟩
  · intro hb
    unfold memcachedGet
    rw [hb]
  · unfold post_request
    simp
  · unfold post_request
    simp

/-- Witness for C5 at a concrete input: against always-raising backends,
`set` returns normally leaving the store unchanged and `get` returns
normally with the absent value. -/
theorem cachePortResilient_witness :
    redisSet 60 [] bsetExn "k" CacheVal.sentinel none = .ok []
    ∧ redisGet [] bgetExn "k" = .ok none
    ∧ memcachedSet 60 "db0:" [] bsetExn "k" CacheVal.sentinel none = .ok []
    ∧ memcachedGet "db0:" [] bgetExn "k" = .ok none := by
  have h := cachePortResilient 60 [] "k" CacheVal.sentinel none "db0:" bsetExn bgetExn
    "u" "b" false none false [] none ⟨200, [], false, []⟩
  exact ⟨h.2.1 rfl, h.2.2.2.1 rfl, h.2.2.2.2.2.1 rfl, h.2.2.2.2.2.2.2.1 rfl⟩

/-- A GraphQL-cache hit decodes the stored response, re-hydrates the body
through the model fields, and performs neither an HTTP call nor a cache
write. -/
theorem post_request_hit (cacheGet : String → Option CacheVal) (url b : String)
    (fl : List String) (life : Option Int) (r : CachedResponse) (respX : GqlResponse)
    (hhit : cacheGet (gqlCacheKey url b) = some (.respBytes r)) :
    post_request cacheGet url b true none true fl life respX
      = ⟨.ok ⟨r.statusCode, r.headers, r.isError, rehydrateBody fl r.body⟩,
          false, none⟩ := by
  unfold post_request
  simp [hhit, CacheVal.truthy]

/-- A GraphQL-cache miss performs the HTTP call and, on a non-error
response, stores the stripped response under the URL+body key. -/
theorem post_request_miss (cacheGet : String → Option CacheVal) (url b : String)
    (fl : List String) (life : Option Int) (respX : GqlResponse)
    (hmiss : cacheGet (gqlCacheKey url b) = none) (hr : respX.isError = false) :
    post_request cacheGet url b true none true fl life respX
      = ⟨.ok respX, true,
          some (gqlCacheKey url b,
            .respBytes ⟨respX.statusCode, respX.headers, respX.isError, stripBody respX.body⟩,
            life)⟩ := by
  unfold post_request
  simp [hmiss, hr]

/-- C6: the GraphQL cache key is the URL concatenated with the serialized
request body, so identical calls share a key and calls with distinct
serialized bodies (distinct variables) have distinct keys; after a first
successful call stores its response, a second identical call hits the
cache and returns the re-hydrated stored response without any HTTP call
(for a body shaped by the model fields it equals the first response
exactly), while a call with a different body misses and performs a fresh
HTTP call. -/
theorem graphqlPostCache (url b b2 : String) (fl : List String) (life : Option Int)
    (resp resp2 resp3 : GqlResponse)
    (hb : b2 ≠ b) (hresp : resp.isError = false) (hresp3 : resp3.isError = false)
    (hkeys : resp.body.map Prod.fst = fl) (hnd : fl.Nodup) :
    gqlCacheKey url b2 ≠ gqlCacheKey url b
    ∧ post_request (fun _ => none) url b true none true fl life resp
      = ⟨.ok resp, true,
          some (gqlCacheKey url b,
            .respBytes ⟨resp.statusCode, resp.headers, resp.isError, stripBody resp.body⟩,
            life)⟩
    ∧ post_request
        (cacheWith url b ⟨resp.statusCode, resp.headers, resp.isError, stripBody resp.body⟩)
        url b true none true fl life resp2
      = ⟨.ok resp, false, none⟩
    ∧ post_request
        (cacheWith url b ⟨resp.statusCode, resp.headers, resp.isError, stripBody resp.body⟩)
        url b2 true none true fl life resp3
      = ⟨.ok resp3, true,
          some (gqlCacheKey url b2,
            .respBytes ⟨resp3.statusCode, resp3.headers, resp3.isError, stripBody resp3.body⟩,
            life)⟩ := by
  have hkey : gqlCacheKey url b2 ≠ gqlCacheKey url b :=
    fun h => hb (string_append_left_cancel url b2 b h)
  have hre : rehydrateBody fl (stripBody resp.body) = resp.body := by
    rw [← hkeys]
    exact rehydrateBody_stripBody resp.body (by rw [hkeys]; exact hnd)
  refine ⟨hkey, ?_, ?_, ?_⟩
  · exact post_request_miss (fun _ => none) url b fl life resp rfl hresp
  · have h := post_request_hit
      (cacheWith url b ⟨resp.statusCode, resp.headers, resp.isError, stripBody resp.body⟩)
      url b fl life ⟨resp.statusCode, resp.headers, resp.isError, stripBody resp.body⟩
      resp2 (by unfold cacheWith; rw [if_pos rfl])
    rw [h]
    show PostRun.mk (.ok ⟨resp.statusCode, resp.headers, resp.isError,
      rehydrateBody fl (stripBody resp.body)⟩) false none = _
    rw [hre]
  · exact post_request_miss
      (cacheWith url b ⟨resp.statusCode, resp.headers, resp.isError, stripBody resp.body⟩)
      url b2 fl life resp3 (by unfold cacheWith; rw [if_neg hkey]) hresp3

/-- Witness for C6 at concrete inputs: same key for the same body, distinct
keys for distinct bodies, a hit without HTTP on the repeat call returning
the first response, and a fresh HTTP call for different variables. -/
theorem graphqlPostCache_witness :
    gqlCacheKey "localhost-books-graphql" "query-books-ids-2"
      ≠ gqlCacheKey "localhost-books-graphql" "query-books-ids-1"
    ∧ post_request (fun _ => none) "localhost-books-graphql" "query-books-ids-1" true none
        true ["id", "title"] (some 60) respW
      = ⟨.ok respW, true,
          some ("localhost-books-graphqlquery-books-ids-1",
            .respBytes ⟨200, [("Content-Type", "json")], false,
              [("id", "1"), ("title", "t")]⟩,
            some 60)⟩
    ∧ post_request
        (cacheWith "localhost-books-graphql" "query-books-ids-1"
          ⟨respW.statusCode, respW.headers, respW.isError, stripBody respW.body⟩)
        "localhost-books-graphql" "query-books-ids-1" true none true ["id", "title"]
        (some 60) respW2
      = ⟨.ok respW, false, none⟩
    ∧ post_request
        (cacheWith "localhost-books-graphql" "query-books-ids-1"
          ⟨respW.statusCode, respW.headers, respW.isError, stripBody respW.body⟩)
        "localhost-books-graphql" "query-books-ids-2" true none true ["id", "title"]
        (some 60) respW2
      = ⟨.ok respW2, true,
          some ("localhost-books-graphqlquery-books-ids-2",
            .respBytes ⟨200, [("Content-Type", "json")], false,
              [("id", "2"), ("title", "u")]⟩,
            some 60)⟩ := by
  have h := graphqlPostCache "localhost-books-graphql" "query-books-ids-1"
    "query-books-ids-2" ["id", "title"] (some 60) respW respW2 respW2 (by decide) rfl rfl
    (by decide) (by decide)
  exact ⟨h.1, h.2.1.trans (by decide), h.2.2.1.trans (by decide),
    h.2.2.2.trans (by decide)⟩

end PatissonReq
